import Mathlib

/-!
Shallow embedding of the runner-provisioning resolvers of the
`pendo324/infrastructure` repository.

Embedded sources:
 * `src/config/env-config.ts`  — `EnvConfigClass` (environment configuration
   resolution with a dev shortcut and fail-fast validation).
 * `src/unnamed/part_000`      — `ASGRunnerStack` (the runner-plan resolver:
   platform dispatch, machine-image selection, user-data construction,
   root volume, autoscaling capacity, beta spin-down scheduled action).

External collaborators (file reads of boot-script templates) are injected as
a `scripts : String → String` function, and the wall-clock time of resolution
as `now : Nat` (milliseconds), mirroring `new Date().getTime()`.

The TypeScript `switch (platform)` in `ASGRunnerStack` contains no `break`
statement in any case, so by JavaScript semantics the `MAC` case falls
through into the `WINDOWS` case and then into `default`, and the `WINDOWS`
case falls through into `default`.  The embedding models each case body as a
state transformer and composes them exactly as the fall-through executes
them.
-/

/-- Mirror of `cdk.Environment`: both fields are optional in the CDK type. -/
structure EnvSpec where
  account : Option String
  region : Option String
deriving DecidableEq, Repr

/-- Modelled from the spec: `PlatformType` is imported from
`src/config/runner-config` which is not part of the provided sources; the
spec's data model gives `enum {MAC, WINDOWS, AMAZONLINUX, LINUX_OTHER}` with
string values interpolated as `mac`, `windows`, `amazonlinux` (the
`LINUX_OTHER` string value is not pinned down by the spec). -/
inductive PlatformType
  | MAC
  | WINDOWS
  | AMAZONLINUX
  | LINUX_OTHER
deriving DecidableEq, Repr

/-- String value of the platform enum member, as interpolated by template
literals in the source (`arm64_${platform}`, resource-group names). -/
def PlatformType.str : PlatformType → String
  | .MAC => "mac"
  | .WINDOWS => "windows"
  | .AMAZONLINUX => "amazonlinux"
  | .LINUX_OTHER => "linux"

/-- Modelled from the spec: `arch` is `enum {x86, arm}`; the source compares
it against the string literal `arm`. -/
inductive Arch
  | x86
  | arm
deriving DecidableEq, Repr

/-- String value of the arch, as interpolated in resource-group names. -/
def Arch.str : Arch → String
  | .x86 => "x86"
  | .arm => "arm"

/-- Mirror of `RunnerType` (from `src/config/runner-config`, fields as used
by the sources and described in the spec's data model). -/
structure RunnerType where
  platform : PlatformType
  arch : Arch
  version : String
  repo : String
  desiredInstances : Nat
deriving DecidableEq, Repr

/-- Modelled from the spec: `ENVIRONMENT_STAGE` is imported from
`finch-pipeline-app-stage` which is not part of the provided sources; the
spec gives stages `Beta`, `Release` and implicitly other pipeline stages not
affecting plan shape. -/
inductive ENVIRONMENT_STAGE
  | Beta
  | Prod
  | Release
deriving DecidableEq, Repr

/-!  Environment configuration resolver (`src/config/env-config.ts`). -/

/-- The raw configuration object: each recognized key either absent or an
account/region object (spec section 6; `configFile` in the source). -/
structure RawConfig where
  envDev : Option EnvSpec
  envPipeline : Option EnvSpec
  envBeta : Option EnvSpec
  envProd : Option EnvSpec
  envRelease : Option EnvSpec
deriving DecidableEq, Repr

/-- Mirror of `EnvConfigClass`'s fields.  In the dev branch the source never
assigns `envProd`/`envRelease` (they stay `undefined`), hence `Option`. -/
structure EnvConfigClass where
  isDev : Bool
  envPipeline : EnvSpec
  envBeta : EnvSpec
  envProd : Option EnvSpec
  envRelease : Option EnvSpec
deriving DecidableEq, Repr

/-- The `EnvConfigClass` constructor: dev shortcut when `envDev` is present,
otherwise require `envPipeline`, `envBeta`, `envProd`, `envRelease` in that
order, throwing on the first missing one. -/
def EnvConfigClass.ofConfigFile (configFile : RawConfig) : Except String EnvConfigClass :=
  match configFile.envDev with
  | some dev =>
    .ok { isDev := true, envPipeline := dev, envBeta := dev, envProd := none, envRelease := none }
  | none =>
    match configFile.envPipeline with
    | none => .error "Error: envPipeline must be specified."
    | some p =>
      match configFile.envBeta with
      | none => .error "Error: envBeta must be specified."
      | some b =>
        match configFile.envProd with
        | none => .error "Error: envProd must be specified."
        | some pr =>
          match configFile.envRelease with
          | none => .error "Error: envRelease must be specified."
          | some r =>
            .ok { isDev := false, envPipeline := p, envBeta := b,
                  envProd := some pr, envRelease := some r }

/-- The first missing required field of a non-dev raw configuration, in the
source's fixed check order. -/
def firstMissingField (c : RawConfig) : Option String :=
  if c.envPipeline.isNone then some "envPipeline"
  else if c.envBeta.isNone then some "envBeta"
  else if c.envProd.isNone then some "envProd"
  else if c.envRelease.isNone then some "envRelease"
  else none

/-!  Runner-plan resolver (`ASGRunnerStack`, `src/unnamed/part_000`). -/

/-- Mirror of `ASGRunnerStackProps` (the stack id/scope and cdk plumbing are
irrelevant to resolution and omitted). -/
structure ASGRunnerStackProps where
  env : Option EnvSpec
  stage : ENVIRONMENT_STAGE
  licenseArn : Option String
  type : RunnerType
deriving DecidableEq, Repr

/-- The string a JavaScript template literal produces for
`${props.env?.region}`: the region when present, the text `undefined` when
the environment or its region is absent. -/
def regionInterp (env : Option EnvSpec) : String :=
  match env with
  | some e =>
    match e.region with
    | some r => r
    | none => "undefined"
  | none => "undefined"

/-- The value of `props.env?.region || ''` (Windows user-data substitution):
falls back to the empty string when the environment or region is absent. -/
def regionOrEmpty (env : Option EnvSpec) : String :=
  match env with
  | some e =>
    match e.region with
    | some r => r
    | none => ""
  | none => ""

/-- Mirror of the module-level `userData` arrow function: a bash preamble
exporting `LABEL_STAGE`, `REPO`, `REGION`, concatenated with the contents of
the named setup script (the file read is the injected `scripts`). -/
def userData (props : ASGRunnerStackProps) (scripts : String → String)
    (setupScriptName : String) : String :=
  "#!/bin/bash\nLABEL_STAGE="
    ++ (if props.stage = ENVIRONMENT_STAGE.Release then "release" else "test")
    ++ "\nREPO=" ++ props.type.repo
    ++ "\nREGION=" ++ regionInterp props.env
    ++ "\n" ++ scripts setupScriptName

/-- Replace the first occurrence of `pat` in a character list, as JavaScript
`String.prototype.replace` does with a string pattern (an empty pattern
matches at the start; an absent pattern leaves the list unchanged). -/
def listReplaceFirst (pat rep : List Char) : List Char → List Char
  | [] => if pat.isEmpty then rep else []
  | c :: cs =>
    if pat.isPrefixOf (c :: cs) then rep ++ (c :: cs).drop pat.length
    else c :: listReplaceFirst pat rep cs

/-- Mirror of JavaScript `s.replace(pat, rep)` with a string pattern: only
the first occurrence is replaced. -/
def jsReplace (s pat rep : String) : String :=
  ⟨listReplaceFirst pat.data rep.data s.data⟩

/-- The value of `version.split('.')[0]`: the characters before the first
dot (the whole string when no dot occurs, the empty string when the string
starts with a dot or is empty — exactly the first element JavaScript
`split` produces). -/
def majorVersion (version : String) : String :=
  ⟨version.data.takeWhile (fun c => c ≠ '.')⟩

/-- The machine-image selector of the resolved plan (tagged variant standing
for the `ec2.IMachineImage` value the source constructs). -/
inductive MachineImage
  | lookupMachineImage (name : String) (virtualizationType rootDeviceType architecture ownerAlias : List String)
  | latestWindows (version : String)
  | latestAmazonLinux2
  | latestAmazonLinux2023
  | genericLinux (amiMap : List (String × String))
deriving DecidableEq, Repr

/-- The four `let`-mutable locals of the constructor's switch.  Before the
switch, `machineImage` is declared without an initializer, hence `Option`. -/
structure SwitchState where
  instanceType : String
  machineImage : Option MachineImage
  userDataString : String
  asgName : String
deriving DecidableEq, Repr

/-- The locals as initialized just before the switch. -/
def initSwitchState : SwitchState :=
  { instanceType := "", machineImage := none, userDataString := "", asgName := "" }

/-- Body of `case PlatformType.MAC`. -/
def macCase (props : ASGRunnerStackProps) (scripts : String → String)
    (s : SwitchState) : SwitchState :=
  let amiSearchString := "amzn-ec2-macos-" ++ props.type.version ++ "*"
  let macOSArchLookup :=
    if props.type.arch = Arch.arm then "arm64_" ++ props.type.platform.str
    else "x86_64_" ++ props.type.platform.str
  { s with
    instanceType := if props.type.arch = Arch.arm then "mac2.metal" else "mac1.metal",
    machineImage := some (.lookupMachineImage amiSearchString
      ["hvm"] ["ebs"] [macOSArchLookup] ["amazon"]),
    asgName := "MacASG",
    userDataString := userData props scripts "setup-runner.sh" }

/-- Body of `case PlatformType.WINDOWS`: placeholder substitution in the
yaml template (JavaScript `replace` substitutes the first occurrence). -/
def windowsCase (props : ASGRunnerStackProps) (scripts : String → String)
    (s : SwitchState) : SwitchState :=
  { s with
    instanceType := "m5zn.metal",
    asgName := "WindowsASG",
    machineImage := some (.latestWindows "WINDOWS_SERVER_2022_ENGLISH_FULL_BASE"),
    userDataString :=
      jsReplace
        (jsReplace
          (jsReplace (scripts "windows-runner-user-data.yaml")
            "<STAGE>"
            (if props.stage = ENVIRONMENT_STAGE.Release then "release" else "test"))
          "<REPO>" props.type.repo)
        "<REGION>" (regionOrEmpty props.env) }

/-- Body of the `default` case: generic Linux handling. -/
def defaultCase (props : ASGRunnerStackProps) (scripts : String → String)
    (s : SwitchState) : SwitchState :=
  { s with
    instanceType := if props.type.arch = Arch.arm then "c7g.large" else "c7a.large",
    asgName := "LinuxASG",
    userDataString := userData props scripts "setup-linux-runner.sh",
    machineImage :=
      if props.type.platform = PlatformType.AMAZONLINUX then
        if props.type.version = "2" then some .latestAmazonLinux2
        else some .latestAmazonLinux2023
      else
        some (.genericLinux
          [("us-east-2", if props.type.arch = Arch.arm then "ami-02f1e969ae0fdff65" else "ami-097f74237291abc07"),
           ("us-east-1", if props.type.arch = Arch.arm then "ami-0d3825b70fa928886" else "ami-004f552bba0e5f64f")]) }

/-- The switch as executed: no case body contains a `break`, so by
JavaScript fall-through semantics the `MAC` case continues into the
`WINDOWS` case and then into `default`, and the `WINDOWS` case continues
into `default`; all other platforms run `default` alone. -/
def runSwitch (props : ASGRunnerStackProps) (scripts : String → String) : SwitchState :=
  match props.type.platform with
  | .MAC => defaultCase props scripts (windowsCase props scripts (macCase props scripts initSwitchState))
  | .WINDOWS => defaultCase props scripts (windowsCase props scripts initSwitchState)
  | _ => defaultCase props scripts initSwitchState

/-- The one-shot scheduled capacity action (`CfnScheduledAction`): a start
time in epoch milliseconds and a target desired capacity. -/
structure ScheduledAction where
  startTime : Nat
  desiredCapacity : Nat
deriving DecidableEq, Repr

/-- The resolved provisioning plan: instance shape, machine image, user
data, naming, root volume, autoscaling capacities, and the optional beta
spin-down action. -/
structure ProvisioningPlan where
  instanceShape : String
  machineImage : Option MachineImage
  userDataString : String
  asgBaseName : String
  resourceGroupName : String
  rootVolumeGiB : Nat
  desiredCapacity : Nat
  maxCapacity : Nat
  minCapacity : Nat
  scheduledShutdown : Option ScheduledAction
deriving DecidableEq, Repr

/-- The `ASGRunnerStack` constructor as a resolution function: runs the
switch, throws `Runner environment is undefined!` when `props.env` is
undefined, and otherwise assembles the plan (resource-group name from repo,
platform, major version and arch; 100 GiB root volume; desired = max =
`desiredInstances`, min 0; a capacity-0 scheduled action one day after
`now` exactly at stage Beta).  `now` is the value of
`new Date().getTime()` at resolution time, in milliseconds. -/
def ASGRunnerStack.resolve (props : ASGRunnerStackProps)
    (scripts : String → String) (now : Nat) : Except String ProvisioningPlan :=
  let s := runSwitch props scripts
  match props.env with
  | none => .error "Runner environment is undefined!"
  | some _ =>
    .ok
      { instanceShape := s.instanceType,
        machineImage := s.machineImage,
        userDataString := s.userDataString,
        asgBaseName := s.asgName,
        resourceGroupName :=
          props.type.repo ++ "-" ++ props.type.platform.str ++ "-"
            ++ majorVersion props.type.version ++ "-"
            ++ props.type.arch.str ++ "HostGroup",
        rootVolumeGiB := 100,
        desiredCapacity := props.type.desiredInstances,
        maxCapacity := props.type.desiredInstances,
        minCapacity := 0,
        scheduledShutdown :=
          if props.stage = ENVIRONMENT_STAGE.Beta then
            some { startTime := now + 1 * 24 * 60 * 60 * 1000, desiredCapacity := 0 }
          else none }

/-!  Concrete fixtures used by closed theorems and witnesses. -/

/-- A concrete injected template store for evaluation. -/
def scripts0 : String → String := fun name =>
  if name = "setup-runner.sh" then "echo mac-setup"
  else if name = "setup-linux-runner.sh" then "echo linux-setup"
  else if name = "windows-runner-user-data.yaml" then
    "runAs: admin\nstage: <STAGE>\nrepo: <REPO>\nregion: <REGION>\n"
  else ""

/-- A fully populated environment spec. -/
def env0 : EnvSpec := { account := some "123", region := some "us-east-1" }

/-- Props for a Mac arm descriptor (spec's testable property: version 14). -/
def macProps : ASGRunnerStackProps :=
  { env := some env0, stage := .Beta, licenseArn := none,
    type := { platform := .MAC, arch := .arm, version := "14",
              repo := "finch", desiredInstances := 1 } }

/-- Props for the spec's Windows scenario: descriptor
`WINDOWS, x86, 2022, myrepo, 3` at stage Release. -/
def winProps : ASGRunnerStackProps :=
  { env := some env0, stage := .Release, licenseArn := none,
    type := { platform := .WINDOWS, arch := .x86, version := "2022",
              repo := "myrepo", desiredInstances := 3 } }

/-- Props for a descriptor whose platform is outside
MAC/WINDOWS/AMAZONLINUX. -/
def otherLinuxProps : ASGRunnerStackProps :=
  { env := some env0, stage := .Release, licenseArn := none,
    type := { platform := .LINUX_OTHER, arch := .arm, version := "40",
              repo := "finch", desiredInstances := 2 } }

/-- Props whose environment is present but lacks a region. -/
def noRegionProps : ASGRunnerStackProps :=
  { env := some { account := some "123", region := none }, stage := .Release,
    licenseArn := none,
    type := { platform := .AMAZONLINUX, arch := .x86, version := "2",
              repo := "finch", desiredInstances := 1 } }

/-- Props whose environment is absent entirely. -/
def noEnvProps : ASGRunnerStackProps :=
  { env := none, stage := .Release, licenseArn := none,
    type := { platform := .AMAZONLINUX, arch := .x86, version := "2",
              repo := "finch", desiredInstances := 1 } }

/-- C1: the claim says a MAC/arm descriptor resolves to instance shape
`mac2.metal` with the `arm64_mac` name-pattern lookup image and
`setup-runner.sh` user data.  Evaluating the embedded constructor at such a
descriptor shows the `MAC` case falls through (no `break`) into the
`WINDOWS` case and then `default`, so the plan actually carries the generic
Linux shape `c7g.large`, asg name `LinuxASG`, the fixed Fedora region-map
image, and `setup-linux-runner.sh` user data. -/
theorem c1_mac_arm_falls_through_to_linux :
    ASGRunnerStack.resolve macProps scripts0 0 =
      Except.ok
        { instanceShape := "c7g.large",
          machineImage := some (MachineImage.genericLinux
            [("us-east-2", "ami-02f1e969ae0fdff65"),
             ("us-east-1", "ami-0d3825b70fa928886")]),
          userDataString :=
            "#!/bin/bash\nLABEL_STAGE=test\nREPO=finch\nREGION=us-east-1\necho linux-setup",
          asgBaseName := "LinuxASG",
          resourceGroupName := "finch-mac-14-armHostGroup",
          rootVolumeGiB := 100,
          desiredCapacity := 1,
          maxCapacity := 1,
          minCapacity := 0,
          scheduledShutdown := some { startTime := 86400000, desiredCapacity := 0 } } := by
  rfl

/-- C2: the claim says the Windows scenario (descriptor
`WINDOWS, x86, 2022, myrepo, 3` at stage Release) yields instance shape
`m5zn.metal`, asg name `WindowsASG` and the substituted yaml user data.
Evaluating the embedded constructor shows the `WINDOWS` case falls through
(no `break`) into `default`, so the plan actually carries `c7a.large`,
`LinuxASG`, the Fedora region-map image, and the bash
`setup-linux-runner.sh` user data instead of the yaml template. -/
theorem c2_windows_falls_through_to_linux :
    ASGRunnerStack.resolve winProps scripts0 0 =
      Except.ok
        { instanceShape := "c7a.large",
          machineImage := some (MachineImage.genericLinux
            [("us-east-2", "ami-097f74237291abc07"),
             ("us-east-1", "ami-004f552bba0e5f64f")]),
          userDataString :=
            "#!/bin/bash\nLABEL_STAGE=release\nREPO=myrepo\nREGION=us-east-1\necho linux-setup",
          asgBaseName := "LinuxASG",
          resourceGroupName := "myrepo-windows-2022-x86HostGroup",
          rootVolumeGiB := 100,
          desiredCapacity := 3,
          maxCapacity := 3,
          minCapacity := 0,
          scheduledShutdown := none } := by
  rfl

/-- C3 counterexample: the claim says a descriptor whose platform is outside
the dispatch table fails with `UnsupportedPlatformError`.  Evaluating the
embedded constructor at a concrete `LINUX_OTHER` descriptor shows resolution
succeeds — it silently falls back to the generic-Linux defaults instead of
raising; no unsupported-platform error exists anywhere in the code. -/
theorem c3_counterexample_other_platform_succeeds :
    ASGRunnerStack.resolve otherLinuxProps scripts0 0 =
      Except.ok
        { instanceShape := "c7g.large",
          machineImage := some (MachineImage.genericLinux
            [("us-east-2", "ami-02f1e969ae0fdff65"),
             ("us-east-1", "ami-0d3825b70fa928886")]),
          userDataString :=
            "#!/bin/bash\nLABEL_STAGE=release\nREPO=finch\nREGION=us-east-1\necho linux-setup",
          asgBaseName := "LinuxASG",
          resourceGroupName := "finch-linux-40-armHostGroup",
          rootVolumeGiB := 100,
          desiredCapacity := 2,
          maxCapacity := 2,
          minCapacity := 0,
          scheduledShutdown := none } := by
  rfl

/-- C3 (amended): a descriptor whose platform is not MAC, WINDOWS or
AMAZONLINUX never fails on platform; given a present environment it resolves
to the generic-Linux defaults — `c7g.large` (arm) / `c7a.large` (x86)
shape, asg name `LinuxASG`, the fixed two-region Fedora image map, and
`setup-linux-runner.sh` user data. -/
theorem c3_amended_generic_linux_default (props : ASGRunnerStackProps)
    (scripts : String → String) (now : Nat) (e : EnvSpec)
    (hp : props.type.platform = PlatformType.LINUX_OTHER)
    (he : props.env = some e) :
    (ASGRunnerStack.resolve props scripts now).map
        (fun p => (p.instanceShape, p.asgBaseName, p.machineImage, p.userDataString)) =
      Except.ok
        ((if props.type.arch = Arch.arm then "c7g.large" else "c7a.large"),
         "LinuxASG",
         some (MachineImage.genericLinux
           [("us-east-2", if props.type.arch = Arch.arm then "ami-02f1e969ae0fdff65" else "ami-097f74237291abc07"),
            ("us-east-1", if props.type.arch = Arch.arm then "ami-0d3825b70fa928886" else "ami-004f552bba0e5f64f")]),
         userData props scripts "setup-linux-runner.sh") := by
  simp [ASGRunnerStack.resolve, runSwitch, hp, he, defaultCase, initSwitchState, Except.map]

/-- C3 witness: the amended theorem applied at the concrete `LINUX_OTHER`
descriptor fixture. -/
theorem c3_amended_generic_linux_default_witness :
    (ASGRunnerStack.resolve otherLinuxProps scripts0 7).map
        (fun p => (p.instanceShape, p.asgBaseName, p.machineImage, p.userDataString)) =
      Except.ok
        ((if otherLinuxProps.type.arch = Arch.arm then "c7g.large" else "c7a.large"),
         "LinuxASG",
         some (MachineImage.genericLinux
           [("us-east-2", if otherLinuxProps.type.arch = Arch.arm then "ami-02f1e969ae0fdff65" else "ami-097f74237291abc07"),
            ("us-east-1", if otherLinuxProps.type.arch = Arch.arm then "ami-0d3825b70fa928886" else "ami-004f552bba0e5f64f")]),
         userData otherLinuxProps scripts0 "setup-linux-runner.sh") :=
  c3_amended_generic_linux_default otherLinuxProps scripts0 7 env0 rfl rfl

/-- C4: for every non-dev raw configuration (`envDev` absent) missing at
least one of `envPipeline`, `envBeta`, `envProd`, `envRelease`, resolution
fails with an error naming exactly the first missing field in the fixed
check order `envPipeline, envBeta, envProd, envRelease` (fail-fast: the
reported field is the earliest missing one and no other). -/
theorem c4_first_missing_field_reported (c : RawConfig) (f : String)
    (hdev : c.envDev = none) (hmiss : firstMissingField c = some f) :
    EnvConfigClass.ofConfigFile c =
      Except.error ("Error: " ++ f ++ " must be specified.") := by
  obtain ⟨dev, p, b, pr, r⟩ := c
  simp only at hdev
  subst hdev
  cases p <;> cases b <;> cases pr <;> cases r <;>
    simp_all [EnvConfigClass.ofConfigFile, firstMissingField] <;>
    (subst hmiss; rfl)

/-- C4 witness: a configuration with `envPipeline` present and `envBeta`
missing reports `envBeta`. -/
theorem c4_first_missing_field_reported_witness :
    EnvConfigClass.ofConfigFile
        { envDev := none, envPipeline := some env0, envBeta := none,
          envProd := some env0, envRelease := none } =
      Except.error ("Error: " ++ "envBeta" ++ " must be specified.") :=
  c4_first_missing_field_reported
    { envDev := none, envPipeline := some env0, envBeta := none,
      envProd := some env0, envRelease := none }
    "envBeta" rfl rfl

/-- C5: for every raw configuration with `envDev` present, resolution
succeeds with `isDev = true`, `envBeta = envPipeline = envDev`, and
`envProd`/`envRelease` absent; all other fields of the configuration are
universally quantified here, so their values never change the result or
cause an error. -/
theorem c5_dev_shortcut (c : RawConfig) (dev : EnvSpec)
    (h : c.envDev = some dev) :
    EnvConfigClass.ofConfigFile c =
      Except.ok { isDev := true, envPipeline := dev, envBeta := dev,
                  envProd := none, envRelease := none } := by
  simp [EnvConfigClass.ofConfigFile, h]

/-- C5 witness: a dev configuration whose other fields are partly present
and partly absent resolves to the dev shortcut. -/
theorem c5_dev_shortcut_witness :
    EnvConfigClass.ofConfigFile
        { envDev := some env0, envPipeline := none, envBeta := some env0,
          envProd := none, envRelease := some env0 } =
      Except.ok { isDev := true, envPipeline := env0, envBeta := env0,
                  envProd := none, envRelease := none } :=
  c5_dev_shortcut
    { envDev := some env0, envPipeline := none, envBeta := some env0,
      envProd := none, envRelease := some env0 }
    env0 rfl

/-- C6: for every AMAZONLINUX descriptor resolved with a present
environment, the plan's machine image is the latest Amazon Linux 2 default
exactly when the version string is `2`, and the latest Amazon Linux 2023
default for every other version string.  (AMAZONLINUX has no own case label
in the switch, so it runs the `default` case directly and fall-through does
not affect it.) -/
theorem c6_amazonlinux_image_choice (props : ASGRunnerStackProps)
    (scripts : String → String) (now : Nat) (e : EnvSpec)
    (hp : props.type.platform = PlatformType.AMAZONLINUX)
    (he : props.env = some e) :
    (ASGRunnerStack.resolve props scripts now).map (fun p => p.machineImage) =
      Except.ok (some (if props.type.version = "2"
                       then MachineImage.latestAmazonLinux2
                       else MachineImage.latestAmazonLinux2023)) := by
  simp only [ASGRunnerStack.resolve, runSwitch, hp, he, defaultCase,
    initSwitchState, Except.map]
  by_cases hv : props.type.version = "2" <;> simp [hv]

/-- C6 witness: the theorem applied at the concrete AMAZONLINUX fixture with
version `2`. -/
theorem c6_amazonlinux_image_choice_witness :
    (ASGRunnerStack.resolve noRegionProps scripts0 0).map (fun p => p.machineImage) =
      Except.ok (some (if noRegionProps.type.version = "2"
                       then MachineImage.latestAmazonLinux2
                       else MachineImage.latestAmazonLinux2023)) :=
  c6_amazonlinux_image_choice noRegionProps scripts0 0
    { account := some "123", region := none } rfl rfl

/-- C7: every successfully resolved plan has a root volume of exactly
100 GiB, for every descriptor, stage, environment, template store and
resolution time. -/
theorem c7_root_volume_always_100 (props : ASGRunnerStackProps)
    (scripts : String → String) (now : Nat) (plan : ProvisioningPlan)
    (h : ASGRunnerStack.resolve props scripts now = Except.ok plan) :
    plan.rootVolumeGiB = 100 := by
  cases he : props.env with
  | none => simp [ASGRunnerStack.resolve, he] at h
  | some e =>
    simp only [ASGRunnerStack.resolve, he, Except.ok.injEq] at h
    subst h
    rfl

/-- C7 witness: the plan resolved at the concrete generic-Linux fixture has
a 100 GiB root volume. -/
theorem c7_root_volume_always_100_witness :
    (ProvisioningPlan.mk "c7g.large"
      (some (MachineImage.genericLinux
        [("us-east-2", "ami-02f1e969ae0fdff65"),
         ("us-east-1", "ami-0d3825b70fa928886")]))
      "#!/bin/bash\nLABEL_STAGE=release\nREPO=finch\nREGION=us-east-1\necho linux-setup"
      "LinuxASG" "finch-linux-40-armHostGroup" 100 2 2 0 none).rootVolumeGiB = 100 :=
  c7_root_volume_always_100 otherLinuxProps scripts0 0 _ (by rfl)

/-- C8: with a present environment, resolution at stage Beta emits exactly
one scheduled action setting desired capacity to 0 with a start time
`1 * 24 * 60 * 60 * 1000` milliseconds (24 hours) after the resolution time
`now`, and resolution at any other stage (in particular Release) emits no
scheduled action. -/
theorem c8_beta_scheduled_shutdown (props : ASGRunnerStackProps)
    (scripts : String → String) (now : Nat) (e : EnvSpec)
    (he : props.env = some e) :
    (ASGRunnerStack.resolve props scripts now).map (fun p => p.scheduledShutdown) =
      Except.ok (if props.stage = ENVIRONMENT_STAGE.Beta
                 then some { startTime := now + 24 * 60 * 60 * 1000, desiredCapacity := 0 }
                 else none) := by
  simp [ASGRunnerStack.resolve, he, Except.map]

/-- C8 witness: the theorem applied at the Beta-stage fixture. -/
theorem c8_beta_scheduled_shutdown_witness :
    (ASGRunnerStack.resolve macProps scripts0 5).map (fun p => p.scheduledShutdown) =
      Except.ok (if macProps.stage = ENVIRONMENT_STAGE.Beta
                 then some { startTime := 5 + 24 * 60 * 60 * 1000, desiredCapacity := 0 }
                 else none) :=
  c8_beta_scheduled_shutdown macProps scripts0 5 env0 rfl

/-- C9 counterexample: the claim says resolution raises for every
environment lacking region or account.  Evaluating the embedded constructor
at a present environment that has an account but no region shows resolution
succeeds (the user data interpolates the absent region as the text
`undefined`): the only check in the code is whether the environment object
itself is absent. -/
theorem c9_counterexample_missing_region_still_resolves :
    ASGRunnerStack.resolve noRegionProps scripts0 0 =
      Except.ok
        { instanceShape := "c7a.large",
          machineImage := some MachineImage.latestAmazonLinux2,
          userDataString :=
            "#!/bin/bash\nLABEL_STAGE=release\nREPO=finch\nREGION=undefined\necho linux-setup",
          asgBaseName := "LinuxASG",
          resourceGroupName := "finch-amazonlinux-2-x86HostGroup",
          rootVolumeGiB := 100,
          desiredCapacity := 1,
          maxCapacity := 1,
          minCapacity := 0,
          scheduledShutdown := none } := by
  rfl

/-- C9 (amended): resolution fails, with the error
`Runner environment is undefined!`, exactly when the environment is absent
entirely; every present environment passes the check, even one missing its
region or account. -/
theorem c9_amended_env_presence_check (props : ASGRunnerStackProps)
    (scripts : String → String) (now : Nat) :
    (ASGRunnerStack.resolve props scripts now).isOk = props.env.isSome ∧
    (props.env = none →
      ASGRunnerStack.resolve props scripts now =
        Except.error "Runner environment is undefined!") := by
  constructor
  · cases he : props.env <;>
      simp [ASGRunnerStack.resolve, he, Except.isOk, Except.toBool]
  · intro he
    simp [ASGRunnerStack.resolve, he]

/-- C9 witness: the amended theorem applied at the fixture with an absent
environment. -/
theorem c9_amended_env_presence_check_witness :
    ASGRunnerStack.resolve noEnvProps scripts0 0 =
      Except.error "Runner environment is undefined!" :=
  (c9_amended_env_presence_check noEnvProps scripts0 0).2 rfl

/-- C10: every successfully resolved plan has desired capacity and maximum
capacity both equal to the descriptor's `desiredInstances` and minimum
capacity 0. -/
theorem c10_capacity_bounds (props : ASGRunnerStackProps)
    (scripts : String → String) (now : Nat) (plan : ProvisioningPlan)
    (h : ASGRunnerStack.resolve props scripts now = Except.ok plan) :
    plan.desiredCapacity = props.type.desiredInstances ∧
    plan.maxCapacity = props.type.desiredInstances ∧
    plan.minCapacity = 0 := by
  cases he : props.env with
  | none => simp [ASGRunnerStack.resolve, he] at h
  | some e =>
    simp only [ASGRunnerStack.resolve, he, Except.ok.injEq] at h
    subst h
    exact ⟨rfl, rfl, rfl⟩

/-- C10 witness: the plan resolved at the Windows-scenario fixture (which
falls through to the Linux defaults) keeps desired = max = 3 and min = 0. -/
theorem c10_capacity_bounds_witness :
    (ProvisioningPlan.mk "c7a.large"
      (some (MachineImage.genericLinux
        [("us-east-2", "ami-097f74237291abc07"),
         ("us-east-1", "ami-004f552bba0e5f64f")]))
      "#!/bin/bash\nLABEL_STAGE=release\nREPO=myrepo\nREGION=us-east-1\necho linux-setup"
      "LinuxASG" "myrepo-windows-2022-x86HostGroup" 100 3 3 0 none).desiredCapacity
        = winProps.type.desiredInstances ∧
    (ProvisioningPlan.mk "c7a.large"
      (some (MachineImage.genericLinux
        [("us-east-2", "ami-097f74237291abc07"),
         ("us-east-1", "ami-004f552bba0e5f64f")]))
      "#!/bin/bash\nLABEL_STAGE=release\nREPO=myrepo\nREGION=us-east-1\necho linux-setup"
      "LinuxASG" "myrepo-windows-2022-x86HostGroup" 100 3 3 0 none).maxCapacity
        = winProps.type.desiredInstances ∧
    (ProvisioningPlan.mk "c7a.large"
      (some (MachineImage.genericLinux
        [("us-east-2", "ami-097f74237291abc07"),
         ("us-east-1", "ami-004f552bba0e5f64f")]))
      "#!/bin/bash\nLABEL_STAGE=release\nREPO=myrepo\nREGION=us-east-1\necho linux-setup"
      "LinuxASG" "myrepo-windows-2022-x86HostGroup" 100 3 3 0 none).minCapacity = 0 :=
  c10_capacity_bounds winProps scripts0 0 _ (by rfl)
